import Mathlib

/-!
Shallow embedding of the Blog-Post Flask application (src/app/routes.py,
src/app/models.py) and verification of its specification claims.

The persistent store is modelled as lists of rows; each handler is a pure
function from the pre-request store (plus the request data, the resolved
bearer identity, the server clock, and the outcome of the persistence
commit) to a response and the post-request store.  External collaborators
(the email-format validator, the password hasher, the JWT library) are
modelled from their documented contracts.
-/

namespace Blog

/-! ## Python dynamic values

The handlers compare values of different Python runtime types
(`comment.author_id`, an `int` loaded from an Integer column, against
`get_jwt_identity()`, a `str` decoded from the JWT `sub` claim).  Python
equality between an `int` and a `str` is always `False`, so `!=` between
them is always `True`; `PyVal` records that semantics. -/

inductive PyVal where
  | int (n : Nat)
  | str (s : String)
deriving DecidableEq, Repr

/-- Python `==`: an int compares equal only to an int with the same value,
a str only to a str with the same value; an int never equals a str. -/
def pyEq : PyVal → PyVal → Bool
  | .int a, .int b => a == b
  | .str a, .str b => a == b
  | _, _ => false

/-! ## Data model (src/app/models.py) -/

/-- Werkzeug password hash, modelled from the spec (section 4.1): a salted
one-way digest.  The model keeps the salt and the hashed password so that
`check_password_hash` can be stated; no route ever reveals the raw field. -/
structure PasswordHash where
  salt : String
  hashedOf : String
deriving DecidableEq, Repr

/-- Modelled from the spec (section 4.1): werkzeug `generate_password_hash`. -/
def generate_password_hash (salt : String) (pw : String) : PasswordHash :=
  { salt := salt, hashedOf := pw }

/-- Modelled from the spec (section 4.1): werkzeug `check_password_hash`
returns true exactly when the raw password matches the one that was hashed. -/
def check_password_hash (h : PasswordHash) (pw : String) : Bool :=
  h.hashedOf == pw

/-- `User` row: id (Integer primary key), unique username, unique email,
password_hash (src/app/models.py lines 7-14). -/
structure User where
  id : Nat
  username : String
  email : String
  password_hash : PasswordHash
deriving DecidableEq, Repr

/-- `Post` row: id, title, content, created_at, updated_at (refreshed
`onupdate`), author_id foreign key (src/app/models.py lines 18-28). -/
structure Post where
  id : Nat
  title : String
  content : String
  created_at : Nat
  updated_at : Nat
  author_id : Nat
deriving DecidableEq, Repr

/-- `Comment` row: id, content, created_at, post_id and author_id foreign
keys (src/app/models.py lines 32-38).  `author_id` is an Integer column, so
a value read back from the store is an int. -/
structure Comment where
  id : Nat
  content : String
  created_at : Nat
  post_id : Nat
  author_id : Nat
deriving DecidableEq, Repr

/-- The relational store. -/
structure DB where
  users : List User
  posts : List Post
  comments : List Comment
deriving DecidableEq, Repr

/-- Autoincrement primary key: one more than the largest id in use. -/
def nextId (ids : List Nat) : Nat := ids.foldr Nat.max 0 + 1

/-- `UPDATE` of the single row found by `query.get`: rewrite the first row
matching the predicate, leave everything else in place. -/
def updateFirst (p : α → Bool) (f : α → α) : List α → List α
  | [] => []
  | x :: xs => if p x then f x :: xs else x :: updateFirst p f xs

/-! ## Token issuer/verifier (flask_jwt_extended, external collaborator)

Modelled from the spec (section 4.2): `issue(user_id) -> token` produces a
signed token embedding the identity and an expiry timestamp;
`verify(token) -> user_id | AuthError`, failing with `Expired` past the
expiry and `Invalid` on a bad signature or malformed structure. -/

structure Token where
  sub : String
  exp : Nat
deriving DecidableEq, Repr

inductive AuthError where
  | invalid
  | expired
deriving DecidableEq, Repr

/-- Token lifetime in seconds (a fixed process-wide configuration value). -/
def jwtTtl : Nat := 900

/-- Modelled from the spec (section 4.2): `create_access_token` mints a
signed token embedding the identity claim and an expiry timestamp. -/
def create_access_token (identity : String) (now : Nat) : Token :=
  { sub := identity, exp := now + jwtTtl }

/-- A bearer credential as presented by a client: either a token signed
with the process secret, or anything else (malformed, or signed with a
different key). -/
inductive Presented where
  | signed (t : Token)
  | forged (raw : String)
deriving DecidableEq, Repr

/-- Modelled from the spec (section 4.2): verification decodes the identity
claim of a well-signed unexpired token and otherwise fails. -/
def verifyToken : Presented → Nat → Except AuthError String
  | .forged _, _ => .error .invalid
  | .signed t, now => if now < t.exp then .ok t.sub else .error .expired

/-! ## Requests and responses -/

/-- A JSON error/success envelope: status code and `message` field. -/
structure Response where
  status : Nat
  message : String
deriving DecidableEq, Repr

/-- Outcome of a handler: either a response it built itself, or an uncaught
Python exception escaping the handler (named by its class), which the
framework converts into a generic 500 Internal Server Error. -/
inductive HOut where
  | resp (r : Response)
  | exn (e : String)
deriving DecidableEq, Repr

/-- The HTTP status the caller observes: an uncaught exception surfaces as
a generic 500 server error. -/
def HOut.status : HOut → Nat
  | .resp r => r.status
  | .exn _ => 500

/-- Body of POST /register; a `none` field is an absent JSON key. -/
structure RegisterBody where
  username : Option String
  email : Option String
  password : Option String
deriving DecidableEq, Repr

/-- Body of POST /login. -/
structure LoginBody where
  username : Option String
  password : Option String
deriving DecidableEq, Repr

/-- Body of POST /posts and PUT /posts/{id}. -/
structure PostBody where
  title : Option String
  content : Option String
deriving DecidableEq, Repr

/-- Body of POST /comments. -/
structure CommentCreateBody where
  post_id : Option Nat
  content : Option String
deriving DecidableEq, Repr

/-- Body of PUT /comments/{id}. -/
structure CommentUpdateBody where
  content : Option String
deriving DecidableEq, Repr

/-- Python truthiness of `data.get(key)`: an absent key gives `None`
(falsy) and an empty string is falsy. -/
def truthy : Option String → Bool
  | some s => !(s == "")
  | none => false

/-- The string identity from `get_jwt_identity()` as it lands in an
Integer column: the store coerces the decimal literal to its numeric
value.  (Identities issued by login are `str(user.id)`, hence decimal;
a non-numeric string would make the commit fail, which the commit-outcome
parameter of each handler covers.) -/
def identNat (s : String) : Nat := s.toNat?.getD 0

/-- Fit of a value for a String(n) column: the store rejects a longer
string at commit time (value too long for varchar). -/
def fitsVarchar (n : Nat) (s : String) : Bool := decide (s.length ≤ n)

/-- Foreign-key constraint of an author_id column (src/app/models.py,
`db.ForeignKey("user.id")`, NOT NULL): the committed value — the bearer
identity string as coerced by the store — must reference a stored user;
a non-numeric identity fails the cast outright. -/
def authorFk (db : DB) (identity : String) : Bool :=
  match identity.toNat? with
  | some uid => db.users.any (fun u => u.id == uid)
  | none => false

/-! ## Route handlers (src/app/routes.py)

Each handler takes the pre-request store and returns the response together
with the post-request store.  `commitOk` models the environment of the
`db.session.commit()` call (connectivity and the like): the commit succeeds
exactly when the environment cooperates AND the write satisfies the schema
constraints declared in src/app/models.py (unique columns, String(n)
bounds, NOT NULL foreign keys); otherwise it raises and nothing is
persisted.  Protected routes take `identity`, the string that
`get_jwt_identity()` returns for the presented token. -/

/-- `register_user` (routes.py lines 14-54): field-presence check (Python
truthiness), email-format check by the external validator, duplicate
username check, then hash and insert.  The insert commits only when the
schema of src/app/models.py lines 8-11 accepts the row: email is a unique
column (line 10) — the handler never pre-checks it — and username and
email are String(500) columns.  (Username uniqueness is guaranteed by the
handler's own check; the password_hash String(500) column always fits the
bounded werkzeug digest.)  A constraint violation raises at commit exactly
like an environmental failure; the whole body is wrapped in try/except
with rollback, so any failed commit answers 500 with the store
unchanged. -/
def register_user (validEmail : String → Bool) (salt : String)
    (db : DB) (data : RegisterBody) (commitOk : Bool) : HOut × DB :=
  match data.username, data.email, data.password with
  | some username, some email, some password =>
    if username == "" || email == "" || password == "" then
      (.resp ⟨400, "Missing required fields: username, email, or password"⟩, db)
    else if !(validEmail email) then
      (.resp ⟨400, "Invalid email address"⟩, db)
    else if (db.users.find? (fun u => u.username == username)).isSome then
      (.resp ⟨400, "Username already exists!"⟩, db)
    else if commitOk && !(db.users.find? (fun u => u.email == email)).isSome
        && fitsVarchar 500 username && fitsVarchar 500 email then
      (.resp ⟨201, "User created successfully!"⟩,
        { db with users := db.users ++
            [{ id := nextId (db.users.map User.id), username := username,
               email := email,
               password_hash := generate_password_hash salt password }] })
    else
      (.resp ⟨500, "Internal Server Error"⟩, db)
  | _, _, _ =>
    (.resp ⟨400, "Missing required fields: username, email, or password"⟩, db)

/-- Result of POST /login: a 200 with an access token, or an error body. -/
inductive LoginResult where
  | ok (access_token : Token)
  | err (status : Nat) (message : String)
deriving DecidableEq, Repr

/-- `login_user` (routes.py lines 58-80): 400 when the request is not JSON
or a key is absent (presence check, not truthiness); then a username lookup
and password check, answering the same 401 body whether the user is missing
or the password wrong.  On success it issues a token for `str(user.id)`. -/
def login_user (db : DB) (body : Option LoginBody) (now : Nat) : LoginResult :=
  match body with
  | none => .err 400 "Missing JSON in request"
  | some data =>
    match data.username, data.password with
    | some username, some password =>
      match db.users.find? (fun u => u.username == username) with
      | some user =>
        if check_password_hash user.password_hash password then
          .ok (create_access_token (toString user.id) now)
        else
          .err 401 "Invalid credentials"
      | none => .err 401 "Invalid credentials"
    | _, _ => .err 400 "Missing username or password field"

/-- `create_post` (routes.py lines 84-109): truthiness check on title and
content, then insert with `author_id = current identity`.  The commit also
enforces the schema: title is a String(100) column (models.py line 20) and
author_id a NOT NULL foreign key to user.id (line 27); content is Text,
unbounded.  The insert/commit is wrapped in try/except (without an
explicit rollback), so any failed commit answers 500 with nothing
persisted. -/
def create_post (db : DB) (identity : String) (data : PostBody)
    (now : Nat) (commitOk : Bool) : HOut × DB :=
  match data.title, data.content with
  | some title, some content =>
    if title == "" || content == "" then
      (.resp ⟨400, "Title and content are required!"⟩, db)
    else if commitOk && fitsVarchar 100 title && authorFk db identity then
      (.resp ⟨201, "Post created successfully!"⟩,
        { db with posts := db.posts ++
            [{ id := nextId (db.posts.map Post.id), title := title,
               content := content, created_at := now, updated_at := now,
               author_id := identNat identity }] })
    else
      (.resp ⟨500, "Error creating post"⟩, db)
  | _, _ => (.resp ⟨400, "Title and content are required!"⟩, db)

/-- `get_post` (routes.py lines 132-152): single-post lookup, 404 when
absent.  (Read-only: the store is unchanged.) -/
def get_post (db : DB) (id : Nat) : Option Post :=
  db.posts.find? (fun p => p.id == id)

/-- `update_post` (routes.py lines 156-198): truthiness check on title and
content, 404 when the post is absent, then rewrite title/content (the
`onupdate` column refreshes `updated_at`) and commit inside try/except with
rollback.  The commit enforces the String(100) bound on title (models.py
line 20); content is Text, unbounded.  No comparison with the current
identity is made. -/
def update_post (db : DB) (_identity : String) (id : Nat) (data : PostBody)
    (now : Nat) (commitOk : Bool) : HOut × DB :=
  match data.title, data.content with
  | some title, some content =>
    if title == "" || content == "" then
      (.resp ⟨400, "Title and content are required!"⟩, db)
    else
      match db.posts.find? (fun p => p.id == id) with
      | none => (.resp ⟨404, "Post not found!"⟩, db)
      | some _ =>
        if commitOk && fitsVarchar 100 title then
          let posts := updateFirst (fun p => p.id == id)
            (fun p => { p with title := title, content := content, updated_at := now }) db.posts
          (.resp ⟨200, "Post updated successfully!"⟩, { db with posts := posts })
        else
          (.resp ⟨500, "Error updating post"⟩, db)
  | _, _ => (.resp ⟨400, "Title and content are required!"⟩, db)

/-- `delete_post` (routes.py lines 202-215): 404 when absent, otherwise
delete the row and commit.  There is no delete cascade on the
`Post.comments` relationship (models.py line 28), so on deleting the
parent the session nullifies the `post_id` of every referencing comment —
a NOT NULL column (models.py line 37) — and the commit therefore fails
with an integrity error whenever any comment references the post, deleting
nothing.  There is no try/except, so any failed commit escapes as an
exception; and no comparison with the current identity. -/
def delete_post (db : DB) (_identity : String) (id : Nat)
    (commitOk : Bool) : HOut × DB :=
  match db.posts.find? (fun p => p.id == id) with
  | none => (.resp ⟨404, "Post not found!"⟩, db)
  | some _ =>
    if commitOk && db.comments.all (fun c => !(c.post_id == id)) then
      (.resp ⟨200, "Post deleted successfully!"⟩,
        { db with posts := db.posts.eraseP (fun p => p.id == id) })
    else
      (.exn "SQLAlchemyError", db)

/-- `create_comment` (routes.py lines 219-232): indexes `data["post_id"]`
with no guard, so an absent key raises KeyError before the post-existence
check; 404 when the referenced post is absent; then `data["content"]`
(again unguarded) and an insert/commit with no try/except.  The commit
enforces the NOT NULL author_id foreign key (models.py line 38); the
post_id foreign key is satisfied by the handler's own existence check, and
content is Text, unbounded. -/
def create_comment (db : DB) (identity : String) (data : CommentCreateBody)
    (now : Nat) (commitOk : Bool) : HOut × DB :=
  match data.post_id with
  | none => (.exn "KeyError", db)
  | some pid =>
    match db.posts.find? (fun p => p.id == pid) with
    | none => (.resp ⟨404, "Post not found"⟩, db)
    | some _ =>
      match data.content with
      | none => (.exn "KeyError", db)
      | some content =>
        if commitOk && authorFk db identity then
          (.resp ⟨201, "Comment created successfully!"⟩,
            { db with comments := db.comments ++
                [{ id := nextId (db.comments.map Comment.id),
                   content := content, created_at := now, post_id := pid,
                   author_id := identNat identity }] })
        else
          (.exn "SQLAlchemyError", db)

/-- `get_single_comment` (routes.py lines 263-278): lookup by id. -/
def get_single_comment (db : DB) (id : Nat) : Option Comment :=
  db.comments.find? (fun c => c.id == id)

/-- `update_comment` (routes.py lines 282-306): 404 when absent; then the
ownership check `comment.author_id != current_user_id` compares the int
loaded from the Integer column with the str returned by
`get_jwt_identity()` (login issues `str(user.id)`), which in Python is
inequality between an int and a str; on a pass, `data.get("content",
comment.content)` keeps the old content when the key is absent, and the
commit has no try/except. -/
def update_comment (db : DB) (identity : String) (id : Nat)
    (data : CommentUpdateBody) (commitOk : Bool) : HOut × DB :=
  match db.comments.find? (fun c => c.id == id) with
  | none => (.resp ⟨404, "Comment not found!"⟩, db)
  | some comment =>
    if !(pyEq (.int comment.author_id) (.str identity)) then
      (.resp ⟨403, "You are not authorized to update this comment!"⟩, db)
    else if commitOk then
      let comments := updateFirst (fun c => c.id == id)
        (fun c => { c with content := data.content.getD comment.content })
        db.comments
      (.resp ⟨200, "Comment updated successfully!"⟩,
        { db with comments := comments })
    else
      (.exn "SQLAlchemyError", db)

/-- `delete_comment` (routes.py lines 310-330): 404 when absent; the same
int-against-str ownership comparison; then delete and commit with no
try/except. -/
def delete_comment (db : DB) (identity : String) (id : Nat)
    (commitOk : Bool) : HOut × DB :=
  match db.comments.find? (fun c => c.id == id) with
  | none => (.resp ⟨404, "Comment not found!"⟩, db)
  | some comment =>
    if !(pyEq (.int comment.author_id) (.str identity)) then
      (.resp ⟨403, "You are not authorized to delete this comment!"⟩, db)
    else if commitOk then
      (.resp ⟨200, "Comment deleted successfully!"⟩,
        { db with comments := db.comments.eraseP (fun c => c.id == id) })
    else
      (.exn "SQLAlchemyError", db)

/-! ## Concrete fixtures (the scenario of spec section 8) -/

/-- User 1, registered as alice. -/
def alice : User :=
  { id := 1, username := "alice", email := "a@x.com",
    password_hash := generate_password_hash ("s1") ("pw1") }

/-- User 2, registered as bob. -/
def bob : User :=
  { id := 2, username := "bob", email := "b@x.com",
    password_hash := generate_password_hash ("s2") ("pw2") }

/-- Post 1, authored by alice. -/
def post1 : Post :=
  { id := 1, title := "t1", content := "c1", created_at := 0, updated_at := 0,
    author_id := 1 }

/-- Comment 1 on post 1, authored by alice. -/
def comment1 : Comment :=
  { id := 1, content := "nice", created_at := 0, post_id := 1, author_id := 1 }

/-- A populated store: two users, one post, one comment. -/
def db0 : DB := { users := [alice, bob], posts := [post1], comments := [comment1] }

/-- A store with the same users and post but no comments, so post 1 has no
referencing comment. -/
def db1 : DB := { users := [alice, bob], posts := [post1], comments := [] }

/-- A 150-character title: non-empty, but longer than the String(100)
column of Post.title. -/
def longTitle : String := String.mk (List.replicate 150 ('a'))

/-! ## Helper lemmas about the store primitives -/

theorem find?_updateFirst {α : Type} (p : α → Bool) (f : α → α) (l : List α)
    (x : α) (hpf : p (f x) = true) :
    l.find? p = some x → (updateFirst p f l).find? p = some (f x) := by
  induction l with
  | nil => intro h; simp at h
  | cons a l ih =>
    intro h
    by_cases ha : p a = true
    · rw [List.find?_cons_of_pos _ ha] at h
      cases h
      rw [updateFirst, if_pos ha]
      exact List.find?_cons_of_pos _ hpf
    · rw [List.find?_cons_of_neg _ ha] at h
      rw [updateFirst, if_neg ha, List.find?_cons_of_neg _ ha]
      exact ih h

theorem find?_eraseP_of_nodup_key {α : Type} (key : α → Nat) (i : Nat)
    (l : List α) (h : (l.map key).Nodup) :
    (l.eraseP (fun a => key a == i)).find? (fun a => key a == i) = none := by
  induction l with
  | nil => simp
  | cons a l ih =>
    rw [List.map_cons, List.nodup_cons] at h
    by_cases ha : (key a == i) = true
    · have hai : key a = i := by simpa using ha
      rw [List.eraseP_cons, ha, cond_true, List.find?_eq_none]
      intro x hx hpx
      have hxi : key x = i := by simpa using hpx
      exact h.1 (by rw [hai, ← hxi]; exact List.mem_map_of_mem key hx)
    · have ha' : (key a == i) = false := by simpa using ha
      rw [List.eraseP_cons, ha', cond_false,
        List.find?_cons_of_neg (p := fun x => key x == i) _ ha]
      exact ih h.2

/-! ## Claim theorems -/

/-- Claim C1: at the failing input — comment 1 authored by user 1 (alice),
the request authenticated with exactly the token login issues for alice
(identity `str(1) = "1"`) — PUT and DELETE /comments/1 return 403 and leave
the store unchanged, although the claim says the author gets 200.  The
ownership comparison `comment.author_id != current_user_id` compares the
int 1 loaded from the Integer column with the str "1" decoded from the
token, and in Python an int never equals a str, so even the author is
rejected.  (The non-author half of the claim, 403 with no change, is what
every caller in fact receives.) -/
theorem c1_author_comment_mutation_gets_403 :
    login_user db0 (some { username := some ("alice"), password := some ("pw1") }) 0 =
      .ok { sub := "1", exp := 900 } ∧
    verifyToken (.signed { sub := "1", exp := 900 }) 0 = .ok ("1") ∧
    comment1.author_id = 1 ∧ alice.id = 1 ∧
    update_comment db0 ("1") 1 { content := some ("better") } true =
      (.resp ⟨403, "You are not authorized to update this comment!"⟩, db0) ∧
    delete_comment db0 ("1") 1 true =
      (.resp ⟨403, "You are not authorized to delete this comment!"⟩, db0) := by
  exact ⟨rfl, rfl, rfl, rfl, rfl, rfl⟩

/-- Claim C9: at the failing input — comment 1 authored by alice, a PUT
/comments/1 by alice (token identity "1") whose body has no "content"
key — the handler answers 403 and not the claimed 200: the int-against-str
ownership comparison rejects the author before the line
`data.get("content", comment.content)` that would have kept the old
content is ever reached. -/
theorem c9_author_update_without_content_key_gets_403 :
    update_comment db0 ("1") 1 { content := none } true =
      (.resp ⟨403, "You are not authorized to update this comment!"⟩, db0) ∧
    (update_comment db0 ("1") 1 { content := none } true).1.status ≠ 200 ∧
    get_single_comment (update_comment db0 ("1") 1 { content := none } true).2 1 =
      some comment1 := by
  refine ⟨rfl, ?_, rfl⟩
  intro h
  simp [update_comment, db0, comment1, pyEq, HOut.status] at h

/-- Claim C10: an authenticated POST /comments whose JSON body has no
"post_id" key makes the handler index `data["post_id"]` with no guard, so
a KeyError escapes before the post-existence check, for every store and
identity and whatever the commit would have done: the caller sees the
generic 500 (neither the documented 201 nor 404) and no comment is
created. -/
theorem c10_create_comment_missing_post_id_raises
    (db : DB) (identity : String) (data : CommentCreateBody) (now : Nat)
    (commitOk : Bool) (h : data.post_id = none) :
    create_comment db identity data now commitOk = (.exn ("KeyError"), db) ∧
    (create_comment db identity data now commitOk).1.status = 500 ∧
    (create_comment db identity data now commitOk).1.status ≠ 201 ∧
    (create_comment db identity data now commitOk).1.status ≠ 404 := by
  obtain ⟨dp, dc⟩ := data
  cases h
  exact ⟨rfl, rfl, by simp [create_comment, HOut.status], by simp [create_comment, HOut.status]⟩

/-- Witness for C10: the concrete store db0 (where post 1 exists) and a
body carrying content but no post_id. -/
theorem c10_witness :
    create_comment db0 ("1") { post_id := none, content := some ("hi") } 0 true =
      (.exn ("KeyError"), db0) ∧
    (create_comment db0 ("1") { post_id := none, content := some ("hi") } 0 true).1.status = 500 ∧
    (create_comment db0 ("1") { post_id := none, content := some ("hi") } 0 true).1.status ≠ 201 ∧
    (create_comment db0 ("1") { post_id := none, content := some ("hi") } 0 true).1.status ≠ 404 :=
  c10_create_comment_missing_post_id_raises db0 ("1")
    { post_id := none, content := some ("hi") } 0 true rfl

/-- Claim C2: verifying a token issued for a user id yields that id back —
the identity is carried as the decimal string `str(u)` that login embeds,
and `verify(issue(str(u))) = str(u)` for every id and every issue time —
and a login whose username lookup succeeds and whose password check passes
answers 200 with exactly such a token for the found user's id. -/
theorem c2_verify_issue_roundtrip_and_login
    (u : Nat) (now : Nat) (db : DB) (data : LoginBody)
    (username password : String) (user : User)
    (hu : data.username = some username) (hp : data.password = some password)
    (hfind : db.users.find? (fun x => x.username == username) = some user)
    (hpw : check_password_hash user.password_hash password = true) :
    verifyToken (.signed (create_access_token (toString u) now)) now =
      .ok (toString u) ∧
    login_user db (some data) now =
      .ok (create_access_token (toString user.id) now) := by
  constructor
  · have hlt : now < now + jwtTtl := by simp [jwtTtl]
    simp [verifyToken, create_access_token, hlt]
  · obtain ⟨du, dp⟩ := data
    cases hu
    cases hp
    simp [login_user, hfind, hpw]

/-- Witness for C2: user id 1 at time 0, and alice logging in against db0
with her correct password. -/
theorem c2_witness :
    verifyToken (.signed (create_access_token (toString 1) 0)) 0 =
      .ok (toString 1) ∧
    login_user db0 (some { username := some ("alice"), password := some ("pw1") }) 0 =
      .ok (create_access_token (toString alice.id) 0) :=
  c2_verify_issue_roundtrip_and_login 1 0 db0
    { username := some ("alice"), password := some ("pw1") }
    ("alice") ("pw1") alice rfl rfl rfl rfl

/-- Claim C7: two POST /login requests with both fields present, one naming
a username with no stored user and one naming a stored user with a wrong
password, get identical responses: the same 401 body "Invalid credentials",
so the response does not reveal whether the user exists. -/
theorem c7_login_failure_indistinguishable
    (db : DB) (u1 p1 u2 p2 : String) (now : Nat) (user : User)
    (h1 : db.users.find? (fun x => x.username == u1) = none)
    (h2 : db.users.find? (fun x => x.username == u2) = some user)
    (hpw : check_password_hash user.password_hash p2 = false) :
    login_user db (some { username := some u1, password := some p1 }) now =
      .err 401 ("Invalid credentials") ∧
    login_user db (some { username := some u2, password := some p2 }) now =
      .err 401 ("Invalid credentials") ∧
    login_user db (some { username := some u1, password := some p1 }) now =
      login_user db (some { username := some u2, password := some p2 }) now := by
  refine ⟨?_, ?_, ?_⟩
  · simp [login_user, h1]
  · simp [login_user, h2, hpw]
  · simp [login_user, h1, h2, hpw]

/-- Witness for C7: against db0, the unknown username "mallory" and the
stored user alice with a wrong password produce the same 401 response. -/
theorem c7_witness :
    login_user db0 (some { username := some ("mallory"), password := some ("x") }) 0 =
      .err 401 ("Invalid credentials") ∧
    login_user db0 (some { username := some ("alice"), password := some ("wrong") }) 0 =
      .err 401 ("Invalid credentials") ∧
    login_user db0 (some { username := some ("mallory"), password := some ("x") }) 0 =
      login_user db0 (some { username := some ("alice"), password := some ("wrong") }) 0 :=
  c7_login_failure_indistinguishable db0 ("mallory") ("x") ("alice") ("wrong") 0 alice
    rfl rfl rfl

/-- Claim C4: a registration whose username equals a stored user's username
answers 400 and leaves the stored users unchanged (no second row), whatever
the email is, whatever the validator says, and whatever a commit would have
done: the duplicate-username branch (or an even earlier 400) fires before
any insert. -/
theorem c4_duplicate_username_rejected
    (validEmail : String → Bool) (salt : String) (db : DB)
    (data : RegisterBody) (commitOk : Bool) (username : String) (u : User)
    (hn : data.username = some username)
    (hmem : u ∈ db.users) (hsame : u.username = username) :
    (register_user validEmail salt db data commitOk).1.status = 400 ∧
    (register_user validEmail salt db data commitOk).2 = db := by
  have hdup : (db.users.find? (fun x => x.username == username)).isSome = true :=
    List.find?_isSome.mpr ⟨u, hmem, by simp [hsame]⟩
  obtain ⟨du, de, dp⟩ := data
  cases hn
  cases de with
  | none => exact ⟨rfl, rfl⟩
  | some email =>
    cases dp with
    | none => exact ⟨rfl, rfl⟩
    | some password =>
      by_cases h0 : (username == "" || email == "" || password == "") = true
      · simp [register_user, h0, HOut.status]
      · by_cases h1 : validEmail email = true
        · simp [register_user, h0, h1, hdup, HOut.status]
        · simp [register_user, h0, h1, HOut.status]

/-- Witness for C4: registering the taken username "alice" with a fresh
email against db0 answers 400 and leaves db0 as it was. -/
theorem c4_witness :
    (register_user (fun _ => true) ("s") db0
      { username := some ("alice"), email := some ("other@x.com"),
        password := some ("pw9") } true).1.status = 400 ∧
    (register_user (fun _ => true) ("s") db0
      { username := some ("alice"), email := some ("other@x.com"),
        password := some ("pw9") } true).2 = db0 :=
  c4_duplicate_username_rejected (fun _ => true) ("s") db0
    { username := some ("alice"), email := some ("other@x.com"),
      password := some ("pw9") } true ("alice") alice rfl (by simp [db0]) rfl

/-- Counterexample for claim C5 as frozen: the payload carol/a@x.com/pw3
aimed at db0 has all fields present and non-empty, its email format is
accepted by the validator, and the username carol is previously unused —
yet the response is 500, not 201, and no User row is persisted: a@x.com is
alice's stored email, and the unique email column (models.py line 10)
fails the insert at commit. -/
theorem c5_counterexample :
    db0.users.find? (fun x => x.username == "carol") = none ∧
    (∃ x ∈ db0.users, x.email = "a@x.com") ∧
    register_user (fun _ => true) ("s3") db0
        { username := some ("carol"), email := some ("a@x.com"),
          password := some ("pw3") } true =
      (.resp ⟨500, "Internal Server Error"⟩, db0) ∧
    (register_user (fun _ => true) ("s3") db0
        { username := some ("carol"), email := some ("a@x.com"),
          password := some ("pw3") } true).1.status ≠ 201 ∧
    (register_user (fun _ => true) ("s3") db0
        { username := some ("carol"), email := some ("a@x.com"),
          password := some ("pw3") } true).2.users = db0.users := by
  exact ⟨rfl, ⟨alice, by simp [db0], rfl⟩, rfl, by decide, rfl⟩

/-- Claim C5 (amended): for a registration with all fields present and
non-empty (within the String(500) columns), a validator-accepted email
and a previously unused username, the handler itself checks only username
duplication — a duplicate email draws no 400 — but the store's unique
email column makes the commit fail on a duplicate email, answering 500
with no row created; with an unused email the new User is persisted with
201. -/
theorem c5_duplicate_email_not_checked
    (validEmail : String → Bool) (salt : String) (db : DB)
    (username email password : String)
    (hn : username ≠ "") (he : email ≠ "") (hp : password ≠ "")
    (hnl : username.length ≤ 500) (hel : email.length ≤ 500)
    (hv : validEmail email = true)
    (hfresh : db.users.find? (fun x => x.username == username) = none) :
    ((db.users.find? (fun x => x.email == email)).isSome = true →
      register_user validEmail salt db
          { username := some username, email := some email,
            password := some password } true =
        (.resp ⟨500, "Internal Server Error"⟩, db)) ∧
    (db.users.find? (fun x => x.email == email) = none →
      register_user validEmail salt db
          { username := some username, email := some email,
            password := some password } true =
        (.resp ⟨201, "User created successfully!"⟩,
         { db with users := db.users ++
             [{ id := nextId (db.users.map User.id), username := username,
                email := email,
                password_hash := generate_password_hash salt password }] })) := by
  have hfit1 : fitsVarchar 500 username = true := decide_eq_true hnl
  have hfit2 : fitsVarchar 500 email = true := decide_eq_true hel
  constructor
  · intro hdup
    simp [register_user, hn, he, hp, hv, hfresh, hdup, hfit1, hfit2]
  · intro hfree
    simp [register_user, hn, he, hp, hv, hfresh, hfree, hfit1, hfit2]

/-- Witness for C5: against db0, carol with alice's exact email a@x.com
draws the commit-level 500 with db0 intact, and carol with the unused
email c@x.com is persisted with 201. -/
theorem c5_witness :
    (register_user (fun _ => true) ("s3") db0
        { username := some ("carol"), email := some ("a@x.com"),
          password := some ("pw3") } true =
      (.resp ⟨500, "Internal Server Error"⟩, db0)) ∧
    (register_user (fun _ => true) ("s3") db0
        { username := some ("carol"), email := some ("c@x.com"),
          password := some ("pw3") } true =
      (.resp ⟨201, "User created successfully!"⟩,
       { db0 with users := db0.users ++
           [{ id := nextId (db0.users.map User.id), username := "carol",
              email := "c@x.com",
              password_hash := generate_password_hash ("s3") ("pw3") }] })) :=
  ⟨(c5_duplicate_email_not_checked (fun _ => true) ("s3") db0
      ("carol") ("a@x.com") ("pw3") (by decide) (by decide) (by decide)
      (by decide) (by decide) rfl rfl).1 rfl,
   (c5_duplicate_email_not_checked (fun _ => true) ("s3") db0
      ("carol") ("c@x.com") ("pw3") (by decide) (by decide) (by decide)
      (by decide) (by decide) rfl rfl).2 rfl⟩

set_option maxRecDepth 4000 in
/-- Counterexample for claim C3 as frozen: two authenticated requests on
the existing post 1 that the claim promises a 200 for, refused by the
program.  A PUT whose title is non-empty but 150 characters long fails the
String(100) column at commit and answers 500 with nothing applied; and a
DELETE of post 1 in db0 — where comment 1 references it — fails the NOT
NULL post_id nullification at commit and answers 500 with the post still
stored. -/
theorem c3_counterexample :
    longTitle ≠ "" ∧
    (update_post db0 ("2") 1 { title := some longTitle, content := some ("c2") } 5 true).1 =
      .resp ⟨500, "Error updating post"⟩ ∧
    (update_post db0 ("2") 1 { title := some longTitle, content := some ("c2") } 5 true).2 = db0 ∧
    (delete_post db0 ("2") 1 true).1.status = 500 ∧
    (delete_post db0 ("2") 1 true).2 = db0 ∧
    get_post (delete_post db0 ("2") 1 true).2 1 = some post1 := by
  exact ⟨by decide, rfl, rfl, rfl, rfl, rfl⟩

/-- Claim C3 (amended): for an existing post and any bearer identity
whatsoever — the handlers never compare it with the post's author_id —
PUT /posts/{id} with non-empty title of at most 100 characters and
non-empty content answers 200 and applies the update (the stored post
carries the new title and content with a refreshed updated_at), and, when
no comment references the post, DELETE /posts/{id} answers 200 and removes
it (a lookup of that id afterwards finds nothing).  The result is
literally the same for every identity. -/
theorem c3_post_update_delete_need_no_ownership
    (db : DB) (identity : String) (id : Nat) (data : PostBody)
    (title content : String) (now : Nat) (post : Post)
    (ht : data.title = some title) (hc : data.content = some content)
    (ht0 : title ≠ "") (hc0 : content ≠ "") (hlen : title.length ≤ 100)
    (hfind : db.posts.find? (fun p => p.id == id) = some post)
    (hnodup : (db.posts.map Post.id).Nodup)
    (hnoc : db.comments.all (fun c => !(c.post_id == id)) = true) :
    (update_post db identity id data now true).1 =
      .resp ⟨200, "Post updated successfully!"⟩ ∧
    get_post (update_post db identity id data now true).2 id =
      some { post with title := title, content := content, updated_at := now } ∧
    (delete_post db identity id true).1 =
      .resp ⟨200, "Post deleted successfully!"⟩ ∧
    get_post (delete_post db identity id true).2 id = none ∧
    (∀ other : String,
      update_post db other id data now true = update_post db identity id data now true ∧
      delete_post db other id true = delete_post db identity id true) := by
  obtain ⟨dt, dc⟩ := data
  cases ht
  cases hc
  have hid : (post.id == id) = true :=
    List.find?_some (p := fun q : Post => q.id == id) hfind
  have hfit : fitsVarchar 100 title = true := decide_eq_true hlen
  refine ⟨?_, ?_, ?_, ?_, fun other => ⟨rfl, rfl⟩⟩
  · simp [update_post, ht0, hc0, hfind, hfit]
  · have hupd := find?_updateFirst (fun p => p.id == id)
      (fun p => { p with title := title, content := content, updated_at := now })
      db.posts post (by simpa using hid) hfind
    simp [update_post, ht0, hc0, hfind, hfit, get_post, hupd]
  · simp [delete_post, hfind, hnoc]
  · have herase := find?_eraseP_of_nodup_key Post.id id db.posts hnodup
    simp [delete_post, hfind, hnoc, get_post]
    simpa using herase

/-- Witness for C3: bob's identity "2" edits and deletes post 1, which
alice (user 1) authored, against db1 (where no comment references it). -/
theorem c3_witness :
    (update_post db1 ("2") 1 { title := some ("t2"), content := some ("c2") } 5 true).1 =
      .resp ⟨200, "Post updated successfully!"⟩ ∧
    get_post (update_post db1 ("2") 1 { title := some ("t2"), content := some ("c2") } 5 true).2 1 =
      some { post1 with title := "t2", content := "c2", updated_at := 5 } ∧
    (delete_post db1 ("2") 1 true).1 = .resp ⟨200, "Post deleted successfully!"⟩ ∧
    get_post (delete_post db1 ("2") 1 true).2 1 = none ∧
    (∀ other : String,
      update_post db1 other 1 { title := some ("t2"), content := some ("c2") } 5 true =
        update_post db1 ("2") 1 { title := some ("t2"), content := some ("c2") } 5 true ∧
      delete_post db1 other 1 true = delete_post db1 ("2") 1 true) :=
  c3_post_update_delete_need_no_ownership db1 ("2") 1
    { title := some ("t2"), content := some ("c2") } ("t2") ("c2") 5 post1
    rfl rfl (by decide) (by decide) (by decide) rfl (by decide) rfl

/-- Claim C8: deleting a post never cascade-deletes its comments: for a
stored post with at least one referencing comment, after an authenticated
DELETE /posts/{id} — whatever the commit environment — every comment whose
post_id equals id is still present and unchanged, and so is the whole
store.  In fact the delete of a commented post cannot go through at all:
with no cascade rule, the session nullifies the NOT NULL Comment.post_id,
the commit fails, and the caller sees the generic 500 with the post still
stored. -/
theorem c8_delete_post_keeps_comments
    (db : DB) (identity : String) (id : Nat) (post : Post) (c : Comment)
    (commitOk : Bool)
    (hfind : db.posts.find? (fun p => p.id == id) = some post)
    (hc : c ∈ db.comments) (hcp : c.post_id = id) :
    (delete_post db identity id commitOk).2.comments = db.comments ∧
    c ∈ (delete_post db identity id commitOk).2.comments ∧
    (delete_post db identity id commitOk).2 = db ∧
    (delete_post db identity id commitOk).1.status = 500 ∧
    get_post (delete_post db identity id commitOk).2 id = some post := by
  have hall : db.comments.all (fun x => !(x.post_id == id)) = false := by
    cases hA : db.comments.all (fun x => !(x.post_id == id)) with
    | false => rfl
    | true =>
      exfalso
      have := List.all_eq_true.mp hA c hc
      simp [hcp] at this
  refine ⟨?_, ?_, ?_, ?_, ?_⟩ <;>
    simp [delete_post, hfind, hall, hc, get_post, HOut.status]

/-- Witness for C8: attempting to delete post 1 from db0 (authenticated as
bob, with a cooperating commit environment) keeps comment 1, which
references post 1, leaves db0 whole, and answers 500. -/
theorem c8_witness :
    (delete_post db0 ("2") 1 true).2.comments = db0.comments ∧
    comment1 ∈ (delete_post db0 ("2") 1 true).2.comments ∧
    (delete_post db0 ("2") 1 true).2 = db0 ∧
    (delete_post db0 ("2") 1 true).1.status = 500 ∧
    get_post (delete_post db0 ("2") 1 true).2 1 = some post1 :=
  c8_delete_post_keeps_comments db0 ("2") 1 post1 comment1 true rfl
    (by simp [db0]) rfl

/-- Claim C6: a failed persistence commit surfaces a 500 to the caller and
leaves the store equal to the pre-request state, for every mutating
operation.  Register and post update answer the 500 from their
try/except-with-rollback; post create answers the 500 from its try/except;
post delete and comment create have no try/except, so the commit error
escapes and the framework's generic 500 is what the caller observes — in
every case the pre-request store is intact.  In comment update and comment
delete the commit statement sits behind the ownership comparison, which
(being int against str) never passes, so a failing commit cannot occur
there; for them the store is unchanged on every input outright. -/
theorem c6_commit_failure_is_500_and_rolled_back :
    (∀ (validEmail : String → Bool) (salt : String) (db : DB)
        (username email password : String),
      username ≠ "" → email ≠ "" → password ≠ "" → validEmail email = true →
      db.users.find? (fun x => x.username == username) = none →
      (register_user validEmail salt db
          { username := some username, email := some email,
            password := some password } false).1.status = 500 ∧
      (register_user validEmail salt db
          { username := some username, email := some email,
            password := some password } false).2 = db) ∧
    (∀ (db : DB) (identity : String) (title content : String) (now : Nat),
      title ≠ "" → content ≠ "" →
      (create_post db identity { title := some title, content := some content }
          now false).1.status = 500 ∧
      (create_post db identity { title := some title, content := some content }
          now false).2 = db) ∧
    (∀ (db : DB) (identity : String) (id : Nat) (title content : String)
        (now : Nat) (post : Post),
      title ≠ "" → content ≠ "" →
      db.posts.find? (fun p => p.id == id) = some post →
      (update_post db identity id { title := some title, content := some content }
          now false).1.status = 500 ∧
      (update_post db identity id { title := some title, content := some content }
          now false).2 = db) ∧
    (∀ (db : DB) (identity : String) (id : Nat) (post : Post),
      db.posts.find? (fun p => p.id == id) = some post →
      (delete_post db identity id false).1.status = 500 ∧
      (delete_post db identity id false).2 = db) ∧
    (∀ (db : DB) (identity : String) (pid : Nat) (content : String)
        (now : Nat) (post : Post),
      db.posts.find? (fun p => p.id == pid) = some post →
      (create_comment db identity { post_id := some pid, content := some content }
          now false).1.status = 500 ∧
      (create_comment db identity { post_id := some pid, content := some content }
          now false).2 = db) ∧
    (∀ (db : DB) (identity : String) (id : Nat) (data : CommentUpdateBody),
      (update_comment db identity id data false).2 = db) ∧
    (∀ (db : DB) (identity : String) (id : Nat),
      (delete_comment db identity id false).2 = db) := by
  refine ⟨?_, ?_, ?_, ?_, ?_, ?_, ?_⟩
  · intro validEmail salt db username email password hn he hp hv hfresh
    constructor <;> simp [register_user, hn, he, hp, hv, hfresh, HOut.status]
  · intro db identity title content now ht hc
    constructor <;> simp [create_post, ht, hc, HOut.status]
  · intro db identity id title content now post ht hc hfind
    constructor <;> simp [update_post, ht, hc, hfind, HOut.status]
  · intro db identity id post hfind
    constructor <;> simp [delete_post, hfind, HOut.status]
  · intro db identity pid content now post hfind
    constructor <;> simp [create_comment, hfind, HOut.status]
  · intro db identity id data
    rw [update_comment]
    cases db.comments.find? (fun c => c.id == id) with
    | none => rfl
    | some comment => simp [pyEq]
  · intro db identity id
    rw [delete_comment]
    cases db.comments.find? (fun c => c.id == id) with
    | none => rfl
    | some comment => simp [pyEq]

/-- Witness for C6: each mutating operation, run against db0 with the
commit failing, answers status 500 (where its commit is reachable) and
leaves db0 exactly as it was. -/
theorem c6_witness :
    ((register_user (fun _ => true) ("s") db0
        { username := some ("carol"), email := some ("c@x.com"),
          password := some ("pw") } false).1.status = 500 ∧
     (register_user (fun _ => true) ("s") db0
        { username := some ("carol"), email := some ("c@x.com"),
          password := some ("pw") } false).2 = db0) ∧
    ((create_post db0 ("1") { title := some ("t9"), content := some ("c9") } 7 false).1.status = 500 ∧
     (create_post db0 ("1") { title := some ("t9"), content := some ("c9") } 7 false).2 = db0) ∧
    ((update_post db0 ("1") 1 { title := some ("t9"), content := some ("c9") } 7 false).1.status = 500 ∧
     (update_post db0 ("1") 1 { title := some ("t9"), content := some ("c9") } 7 false).2 = db0) ∧
    ((delete_post db0 ("1") 1 false).1.status = 500 ∧
     (delete_post db0 ("1") 1 false).2 = db0) ∧
    ((create_comment db0 ("1") { post_id := some 1, content := some ("hey") } 7 false).1.status = 500 ∧
     (create_comment db0 ("1") { post_id := some 1, content := some ("hey") } 7 false).2 = db0) ∧
    (update_comment db0 ("1") 1 { content := some ("hey") } false).2 = db0 ∧
    (delete_comment db0 ("1") 1 false).2 = db0 :=
  ⟨c6_commit_failure_is_500_and_rolled_back.1 (fun _ => true) ("s") db0
      ("carol") ("c@x.com") ("pw") (by decide) (by decide) (by decide) rfl rfl,
   c6_commit_failure_is_500_and_rolled_back.2.1 db0 ("1") ("t9") ("c9") 7
      (by decide) (by decide),
   c6_commit_failure_is_500_and_rolled_back.2.2.1 db0 ("1") 1 ("t9") ("c9") 7 post1
      (by decide) (by decide) rfl,
   c6_commit_failure_is_500_and_rolled_back.2.2.2.1 db0 ("1") 1 post1 rfl,
   c6_commit_failure_is_500_and_rolled_back.2.2.2.2.1 db0 ("1") 1 ("hey") 7 post1 rfl,
   c6_commit_failure_is_500_and_rolled_back.2.2.2.2.2.1 db0 ("1") 1
      { content := some ("hey") },
   c6_commit_failure_is_500_and_rolled_back.2.2.2.2.2.2 db0 ("1") 1⟩

end Blog
